import Mathlib

/-!
A shallow embedding of the exFAT directory entry-set parser and name-assembly
state machine of `src/tsk/fs/exaftfs_dent.c`, together with theorems settling
the frozen claims about it.

Machine integers are modelled as `Nat` with explicit `% 2^w` where the C code
truncates (`uint8_t` stores, the `uint16_t` running checksum).  External
collaborators (entry classifier, sector-allocation oracle, sector-to-inode
translation, UTF-16 to UTF-8 decoder) are parameters bundled in `Externals`,
as the specification declares them external interfaces.
-/

namespace ExfatDent

/-! ### Directory entry type tags

Modelled from the spec: the `EXFATFS_DIR_ENTRY_TYPE_ENUM` tag values live in
`tsk_exfatfs.h`, which is not under `src/`; the values below are the vendor
exFAT type-tag bytes (in-use tags have the high bit set, deleted variants
clear it), matching the pairing the spec mandates
(deleted-file/file, deleted-stream/stream, deleted-name/name). -/

def EXFATFS_DIR_ENTRY_TYPE_NONE : Nat := 0x00

def EXFATFS_DIR_ENTRY_TYPE_FILE : Nat := 0x85

def EXFATFS_DIR_ENTRY_TYPE_DELETED_FILE : Nat := 0x05

def EXFATFS_DIR_ENTRY_TYPE_FILE_STREAM : Nat := 0xC0

def EXFATFS_DIR_ENTRY_TYPE_DELETED_FILE_STREAM : Nat := 0x40

def EXFATFS_DIR_ENTRY_TYPE_FILE_NAME : Nat := 0xC1

def EXFATFS_DIR_ENTRY_TYPE_DELETED_FILE_NAME : Nat := 0x41

def EXFATFS_DIR_ENTRY_TYPE_VOLUME_LABEL : Nat := 0x83

def EXFATFS_DIR_ENTRY_TYPE_VOLUME_LABEL_EMPTY : Nat := 0x03

def EXFATFS_DIR_ENTRY_TYPE_VOLUME_GUID : Nat := 0xA0

def EXFATFS_DIR_ENTRY_TYPE_ALLOC_BITMAP : Nat := 0x81

def EXFATFS_DIR_ENTRY_TYPE_UPCASE_TABLE : Nat := 0x82

def EXFATFS_DIR_ENTRY_TYPE_TEX_FAT : Nat := 0xA1

def EXFATFS_DIR_ENTRY_TYPE_ACT : Nat := 0xE2

/-- Modelled from the spec: `FATFS_ATTR_DIRECTORY` of `tsk_fatfs.h` (not under
`src/`), the FAT directory attribute bit read from the primary entry. -/
def FATFS_ATTR_DIRECTORY : Nat := 0x10

/-- Modelled from the spec: the fixed compile-time capacity of the UTF-8 name
buffer (`EXFATFS_MAX_NAME_LEN_UTF8` of `tsk_exfatfs.h`, not under `src/`).
Only its being a fixed constant larger than the per-entry fragment size
matters to the claims. -/
def EXFATFS_MAX_NAME_LEN_UTF8 : Nat := 1024

/-- Per-entry UTF-16 name-fragment capacity
(`EXFATFS_MAX_FILE_NAME_SEGMENT_LENGTH`, 15 code units per name entry). -/
def EXFATFS_MAX_FILE_NAME_SEGMENT_LENGTH : Nat := 15

/-- Modelled from the spec: the fixed label-length limit of a volume label
(11 UTF-16 code units), used only by the claim-side rendering of C6. -/
def EXFATFS_MAX_VOLUME_LABEL_LEN : Nat := 11

/-! ### Raw 32-byte directory entries -/

/-- A raw directory entry: `FATFS_DENTRY` is a 32-byte buffer.  `data` holds
the bytes by position; only positions 0..31 are ever read. -/
structure FATFS_DENTRY where
  data : Nat → Nat

/-- Reading one `uint8_t` byte of the entry (byte positions are `uint8_t`
reads in C, hence the `% 256`). -/
def FATFS_DENTRY.byte (d : FATFS_DENTRY) (i : Nat) : Nat :=
  d.data i % 256

/-- Build an entry from a list of byte values (positions past the end read 0,
like the zero-padded buffers used in the concrete runs below). -/
def mkDentry (l : List Nat) : FATFS_DENTRY :=
  ⟨fun i => l.getD i 0⟩

/-- `tsk_getu16` on the two checksum bytes: little-endian 16-bit read, the
endianness exFAT mandates. -/
def tsk_getu16 (lo hi : Nat) : Nat :=
  (lo % 256 + 256 * (hi % 256)) % 65536

/-! ### TSK result and name types -/

inductive TSK_RETVAL_ENUM where
  | TSK_OK
  | TSK_ERR
  | TSK_STOP
  | TSK_COR
deriving DecidableEq

export TSK_RETVAL_ENUM (TSK_OK TSK_ERR TSK_STOP TSK_COR)

inductive TSK_FS_NAME_TYPE_ENUM where
  | UNDEF
  | REG
  | DIR
deriving DecidableEq

inductive TSK_FS_NAME_FLAG_ENUM where
  | ALLOC
  | UNALLOC
deriving DecidableEq

/-- The relevant fields of a `TSK_FS_NAME`.  `name` is the byte content of
the UTF-8 name buffer; its C-string value is `cstrVal name`. -/
structure TSK_FS_NAME where
  name : List Nat
  meta_addr : Nat
  type : TSK_FS_NAME_TYPE_ENUM
  flags : TSK_FS_NAME_FLAG_ENUM
deriving DecidableEq

/-- The C-string value of a byte buffer: the bytes before the first NUL. -/
def cstrVal (l : List Nat) : List Nat :=
  l.takeWhile (fun b => b ≠ 0)

/-- The `EXFATFS_FS_NAME_INFO` accumulator.  The `uint8_t` counters are kept
`< 256` by taking `% 256` exactly where the C code stores into them; the
`uint16_t` checksums likewise with `% 65536`. -/
structure EXFATFS_FS_NAME_INFO where
  sector_is_allocated : Bool
  last_dentry_type : Nat
  expected_secondary_entry_count : Nat
  actual_secondary_entry_count : Nat
  expected_check_sum : Nat
  actual_check_sum : Nat
  expected_name_length : Nat
  actual_name_length : Nat
  fs_name : TSK_FS_NAME
deriving DecidableEq

/-- The external collaborators of the core, per the spec's interface section:
entry classifier `exfatfs_is_dentry` (raw entry, assume-allocated hint to
entry-type tag, `EXFATFS_DIR_ENTRY_TYPE_NONE` for rejection), the
sector-allocation oracle `fatfs_is_sectalloc` (1 allocated, 0 unallocated,
-1 lookup failure), the sector-to-inode translation `FATFS_SECT_2_INODE`,
and the UTF-16 to UTF-8 decoder `fatfs_utf16_inode_str_2_utf8` (source code
units as bytes, number of UTF-16 units to convert; `none` on conversion
failure, otherwise the decoded UTF-8 bytes, modelled per the spec as
appended to the name under assembly). -/
structure Externals where
  exfatfs_is_dentry : FATFS_DENTRY → Bool → Nat
  fatfs_is_sectalloc : Nat → Int
  fatfs_sect_2_inode : Nat → Nat
  fatfs_utf16_inode_str_2_utf8 : List Nat → Nat → Option (List Nat)

/-- Modelled from the spec: `fatfs_is_inum_in_range` (in `fatfs_utils.c`, not
under `src/`) checks an inode address against the file system's valid inode
range. -/
def fatfs_is_inum_in_range (first_inum last_inum inum : Nat) : Bool :=
  first_inum ≤ inum && inum ≤ last_inum

/-- The fields of `FATFS_INFO` / `TSK_FS_INFO` the parser reads. -/
structure FATFS_INFO where
  ssize : Nat
  dentry_cnt_se : Nat
  first_inum : Nat
  last_inum : Nat

/-! ### Checksum accumulator (`exfatfs_update_file_entry_set_checksum`) -/

/-- One checksum fold step as the C source writes it:
`check_sum = ((check_sum << 15) | (check_sum >> 1)) + byte`, truncated to
16 bits at the `uint16_t` store. -/
def exfatfs_checksum_step (cs byte_to_add : Nat) : Nat :=
  (((cs <<< 15) ||| (cs >>> 1)) + byte_to_add) % 65536

/-- The skip test of the checksum loop: positions 2 and 3 of a file or
deleted-file entry hold the stored checksum itself and are skipped. -/
def exfatfs_checksum_skip (dentry_type index : Nat) : Prop :=
  (dentry_type = EXFATFS_DIR_ENTRY_TYPE_FILE ∨
   dentry_type = EXFATFS_DIR_ENTRY_TYPE_DELETED_FILE) ∧
  (index = 2 ∨ index = 3)

instance (t i : Nat) : Decidable (exfatfs_checksum_skip t i) := by
  unfold exfatfs_checksum_skip; infer_instance

/-- The byte folded at a position: at position 0 a deleted-variant tag is
replaced by its in-use counterpart (the on-disk checksum was computed before
the set was marked deleted); elsewhere the literal byte. -/
def exfatfs_checksum_byte (d : FATFS_DENTRY) (index : Nat) : Nat :=
  if index = 0 then
    if d.byte 0 = EXFATFS_DIR_ENTRY_TYPE_DELETED_FILE then
      EXFATFS_DIR_ENTRY_TYPE_FILE
    else if d.byte 0 = EXFATFS_DIR_ENTRY_TYPE_DELETED_FILE_STREAM then
      EXFATFS_DIR_ENTRY_TYPE_FILE_STREAM
    else if d.byte 0 = EXFATFS_DIR_ENTRY_TYPE_DELETED_FILE_NAME then
      EXFATFS_DIR_ENTRY_TYPE_FILE_NAME
    else d.byte 0
  else d.byte index

/-- `exfatfs_update_file_entry_set_checksum`: fold the 32 bytes of the entry
into the running 16-bit checksum, skipping the stored-checksum positions of a
primary entry. -/
def exfatfs_update_file_entry_set_checksum (d : FATFS_DENTRY) (cs : Nat) : Nat :=
  (List.range 32).foldl
    (fun acc index =>
      if exfatfs_checksum_skip (d.byte 0) index then acc
      else exfatfs_checksum_step acc (exfatfs_checksum_byte d index))
    cs

/-! ### Finalizer (`exfatfs_add_name_to_dir_and_reset_info`) -/

/-- `exfatfs_reset_name_info`: restore the accumulator fields to their
initialized state (the sector allocation flag is not touched; name buffer
value becomes empty, flags default to allocated). -/
def exfatfs_reset_name_info (s : EXFATFS_FS_NAME_INFO) : EXFATFS_FS_NAME_INFO :=
  { s with
    last_dentry_type := EXFATFS_DIR_ENTRY_TYPE_NONE
    expected_secondary_entry_count := 0
    actual_secondary_entry_count := 0
    expected_check_sum := 0
    actual_check_sum := 0
    expected_name_length := 0
    actual_name_length := 0
    fs_name := { name := []
                 meta_addr := 0
                 type := TSK_FS_NAME_TYPE_ENUM.UNDEF
                 flags := TSK_FS_NAME_FLAG_ENUM.ALLOC } }

/-- The record handed to the directory sink (`tsk_fs_dir_add` copies the
fields; the name copied is the buffer's C-string value). -/
def mkEmittedName (s : EXFATFS_FS_NAME_INFO) : TSK_FS_NAME :=
  { s.fs_name with name := cstrVal s.fs_name.name }

/-- `exfatfs_add_name_to_dir_and_reset_info`: emit the pending name to the
directory sink when `strlen` of the buffer is positive, then unconditionally
reset the accumulator.  The second component is the list of records handed to
the sink by this call. -/
def exfatfs_add_name_to_dir_and_reset_info (s : EXFATFS_FS_NAME_INFO) :
    EXFATFS_FS_NAME_INFO × List TSK_FS_NAME :=
  (exfatfs_reset_name_info s,
   if 0 < (cstrVal s.fs_name.name).length then [mkEmittedName s] else [])

/-! ### Per-type handlers -/

/-- `exfats_parse_file_dentry`: open a new entry set from a primary (file)
entry.  Layout (vendor-mandated, headers not under `src/`): byte 1 declared
secondary count, bytes 2-3 declared 16-bit checksum, byte 4 first attribute
byte. -/
def exfats_parse_file_dentry (s : EXFATFS_FS_NAME_INFO) (d : FATFS_DENTRY)
    (a_inum : Nat) : EXFATFS_FS_NAME_INFO × List TSK_FS_NAME :=
  let fin := exfatfs_add_name_to_dir_and_reset_info s
  let s1 := fin.1
  ({ s1 with
     last_dentry_type := d.byte 0
     expected_secondary_entry_count := d.byte 1
     expected_check_sum := tsk_getu16 (d.byte 2) (d.byte 3)
     actual_check_sum := exfatfs_update_file_entry_set_checksum d s1.actual_check_sum
     fs_name := { s1.fs_name with
                  type := if d.byte 4 &&& FATFS_ATTR_DIRECTORY ≠ 0 then
                            TSK_FS_NAME_TYPE_ENUM.DIR
                          else TSK_FS_NAME_TYPE_ENUM.REG
                  flags := if s.sector_is_allocated ∧
                              d.byte 0 = EXFATFS_DIR_ENTRY_TYPE_FILE then
                             TSK_FS_NAME_FLAG_ENUM.ALLOC
                           else TSK_FS_NAME_FLAG_ENUM.UNALLOC
                  meta_addr := a_inum } },
   fin.2)

/-- `exfats_parse_file_stream_dentry`: a stream entry must directly follow a
primary entry with the same in-use variant; on violation the current state is
force-finalized and the entry ignored.  Byte 3 is the declared name length;
the `uint8_t` secondary counter increments modulo 256. -/
def exfats_parse_file_stream_dentry (s : EXFATFS_FS_NAME_INFO)
    (d : FATFS_DENTRY) (a_inum : Nat) :
    EXFATFS_FS_NAME_INFO × List TSK_FS_NAME :=
  if s.last_dentry_type ≠ EXFATFS_DIR_ENTRY_TYPE_FILE ∧
     s.last_dentry_type ≠ EXFATFS_DIR_ENTRY_TYPE_DELETED_FILE then
    exfatfs_add_name_to_dir_and_reset_info s
  else if (s.last_dentry_type = EXFATFS_DIR_ENTRY_TYPE_FILE ∧
           d.byte 0 = EXFATFS_DIR_ENTRY_TYPE_DELETED_FILE_STREAM) ∨
          (s.last_dentry_type = EXFATFS_DIR_ENTRY_TYPE_DELETED_FILE ∧
           d.byte 0 = EXFATFS_DIR_ENTRY_TYPE_FILE_STREAM) then
    exfatfs_add_name_to_dir_and_reset_info s
  else
    let s1 := { s with
                last_dentry_type := d.byte 0
                expected_name_length := d.byte 3
                actual_check_sum :=
                  exfatfs_update_file_entry_set_checksum d s.actual_check_sum
                actual_secondary_entry_count :=
                  (s.actual_secondary_entry_count + 1) % 256 }
    if s1.actual_secondary_entry_count = s1.expected_secondary_entry_count then
      exfatfs_add_name_to_dir_and_reset_info s1
    else (s1, [])

/-- The UTF-16 code-unit region of a name entry: bytes 2..31 carry up to 15
UTF-16 units. -/
def nameEntryUnits (d : FATFS_DENTRY) : List Nat :=
  (List.range 30).map (fun k => d.byte (2 + k))

/-- The number of UTF-16 units a name entry contributes: the remaining
declared length (`uint8_t` values subtracted in `int`, a negative difference
converting to a huge `size_t`) clipped to the per-entry segment capacity. -/
def exfatfs_name_chars_to_copy (expected actual : Nat) : Nat :=
  let raw_diff : Nat :=
    if actual ≤ expected then expected - actual
    else 2 ^ 64 - (actual - expected)
  if raw_diff > EXFATFS_MAX_FILE_NAME_SEGMENT_LENGTH then
    EXFATFS_MAX_FILE_NAME_SEGMENT_LENGTH
  else raw_diff

/-- `exfats_parse_file_name_dentry`: a name-fragment entry must follow a
stream or name entry of the same in-use variant.  The copy is skipped
entirely when it would not fit the name buffer.  A decode failure truncates
to what was already assembled and finalizes immediately. -/
def exfats_parse_file_name_dentry (ext : Externals) (s : EXFATFS_FS_NAME_INFO)
    (d : FATFS_DENTRY) (a_inum : Nat) :
    EXFATFS_FS_NAME_INFO × List TSK_FS_NAME :=
  if s.last_dentry_type ≠ EXFATFS_DIR_ENTRY_TYPE_FILE_STREAM ∧
     s.last_dentry_type ≠ EXFATFS_DIR_ENTRY_TYPE_DELETED_FILE_STREAM ∧
     s.last_dentry_type ≠ EXFATFS_DIR_ENTRY_TYPE_FILE_NAME ∧
     s.last_dentry_type ≠ EXFATFS_DIR_ENTRY_TYPE_DELETED_FILE_NAME then
    exfatfs_add_name_to_dir_and_reset_info s
  else if ((s.last_dentry_type = EXFATFS_DIR_ENTRY_TYPE_FILE_STREAM ∨
            s.last_dentry_type = EXFATFS_DIR_ENTRY_TYPE_FILE_NAME) ∧
           d.byte 0 = EXFATFS_DIR_ENTRY_TYPE_DELETED_FILE_NAME) ∨
          ((s.last_dentry_type = EXFATFS_DIR_ENTRY_TYPE_DELETED_FILE_STREAM ∨
            s.last_dentry_type = EXFATFS_DIR_ENTRY_TYPE_DELETED_FILE_NAME) ∧
           d.byte 0 = EXFATFS_DIR_ENTRY_TYPE_FILE_NAME) then
    exfatfs_add_name_to_dir_and_reset_info s
  else
    let s1 := { s with last_dentry_type := d.byte 0 }
    let num_chars_to_copy : Nat :=
      exfatfs_name_chars_to_copy s1.expected_name_length s1.actual_name_length
    if s1.actual_name_length + num_chars_to_copy <
       EXFATFS_MAX_NAME_LEN_UTF8 - 1 then
      match ext.fatfs_utf16_inode_str_2_utf8 (nameEntryUnits d)
              num_chars_to_copy with
      | none =>
          let s2 := { s1 with
                      fs_name := { s1.fs_name with
                                   name := s1.fs_name.name.take
                                             s1.actual_name_length } }
          exfatfs_add_name_to_dir_and_reset_info s2
      | some decoded =>
          let new_len := (s1.actual_name_length + num_chars_to_copy) % 256
          let s2 := { s1 with
                      actual_name_length := new_len
                      fs_name := { s1.fs_name with
                                   name := (s1.fs_name.name ++ decoded).take
                                             new_len }
                      actual_secondary_entry_count :=
                        (s1.actual_secondary_entry_count + 1) % 256 }
          if s2.actual_secondary_entry_count =
             s2.expected_secondary_entry_count then
            exfatfs_add_name_to_dir_and_reset_info s2
          else (s2, [])
    else
      let s2 := { s1 with
                  actual_secondary_entry_count :=
                    (s1.actual_secondary_entry_count + 1) % 256 }
      if s2.actual_secondary_entry_count =
         s2.expected_secondary_entry_count then
        exfatfs_add_name_to_dir_and_reset_info s2
      else (s2, [])

/-- The UTF-16 code-unit region of a volume label entry: byte 1 is the
character count, bytes 2..23 carry up to 11 UTF-16 units. -/
def volLabelUnits (d : FATFS_DENTRY) : List Nat :=
  (List.range 22).map (fun k => d.byte (2 + k))

/-- The human-readable suffix appended to a decoded volume label. -/
def volLabelTag : List Nat :=
  " (Volume Label Entry)".toList.map Char.toNat

/-- `exfats_parse_vol_label_dentry`: force-finalize any open set; an
empty-variant label produces nothing further; otherwise decode
`utf16_char_count + 1` units, discard silently on failure, and on success
append the suffix tag when it fits, record the inode address, and finalize
immediately. -/
def exfats_parse_vol_label_dentry (ext : Externals)
    (s : EXFATFS_FS_NAME_INFO) (d : FATFS_DENTRY) (a_inum : Nat) :
    EXFATFS_FS_NAME_INFO × List TSK_FS_NAME :=
  let fin := exfatfs_add_name_to_dir_and_reset_info s
  let s1 := { fin.1 with last_dentry_type := d.byte 0 }
  if d.byte 0 ≠ EXFATFS_DIR_ENTRY_TYPE_VOLUME_LABEL_EMPTY then
    match ext.fatfs_utf16_inode_str_2_utf8 (volLabelUnits d)
            (d.byte 1 + 1) with
    | none => (exfatfs_reset_name_info s1, fin.2)
    | some decoded =>
        let new_len := (s1.actual_name_length + d.byte 1) % 256
        let s2 := { s1 with
                    actual_name_length := new_len
                    fs_name := { s1.fs_name with
                                 name := (s1.fs_name.name ++ decoded).take
                                           new_len } }
        let s3 :=
          if s2.actual_name_length + volLabelTag.length <
             EXFATFS_MAX_NAME_LEN_UTF8 then
            { s2 with
              fs_name := { s2.fs_name with
                           name := s2.fs_name.name ++ volLabelTag } }
          else s2
        let s4 := { s3 with fs_name := { s3.fs_name with meta_addr := a_inum } }
        let fin2 := exfatfs_add_name_to_dir_and_reset_info s4
        (fin2.1, fin.2 ++ fin2.2)
  else (s1, fin.2)

/-- Modelled from the spec: the fixed virtual file names (one constant string
per special entry type; the string constants live in headers not under
`src/`). -/
def EXFATFS_VOLUME_GUID_VIRT_FILENAME : List Nat :=
  "$VOLUME_GUID".toList.map Char.toNat

def EXFATFS_ALLOC_BITMAP_VIRT_FILENAME : List Nat :=
  "$ALLOC_BITMAP".toList.map Char.toNat

def EXFATFS_UPCASE_TABLE_VIRT_FILENAME : List Nat :=
  "$UPCASE_TABLE".toList.map Char.toNat

def EXFATFS_TEX_FAT_VIRT_FILENAME : List Nat :=
  "$TEX_FAT".toList.map Char.toNat

def EXFATFS_ACT_VIRT_FILENAME : List Nat :=
  "$ALLOC_CONTROL_TABLE".toList.map Char.toNat

/-- `exfats_parse_special_file_dentry`: force-finalize any open set, record
the inode address, assign the type-specific fixed virtual name, and finalize
immediately. -/
def exfats_parse_special_file_dentry (s : EXFATFS_FS_NAME_INFO)
    (d : FATFS_DENTRY) (a_inum : Nat) :
    EXFATFS_FS_NAME_INFO × List TSK_FS_NAME :=
  let fin := exfatfs_add_name_to_dir_and_reset_info s
  let s1 := { fin.1 with
              last_dentry_type := d.byte 0
              fs_name := { fin.1.fs_name with meta_addr := a_inum } }
  let nm : List Nat :=
    if d.byte 0 = EXFATFS_DIR_ENTRY_TYPE_VOLUME_GUID then
      EXFATFS_VOLUME_GUID_VIRT_FILENAME
    else if d.byte 0 = EXFATFS_DIR_ENTRY_TYPE_ALLOC_BITMAP then
      EXFATFS_ALLOC_BITMAP_VIRT_FILENAME
    else if d.byte 0 = EXFATFS_DIR_ENTRY_TYPE_UPCASE_TABLE then
      EXFATFS_UPCASE_TABLE_VIRT_FILENAME
    else if d.byte 0 = EXFATFS_DIR_ENTRY_TYPE_TEX_FAT then
      EXFATFS_TEX_FAT_VIRT_FILENAME
    else if d.byte 0 = EXFATFS_DIR_ENTRY_TYPE_ACT then
      EXFATFS_ACT_VIRT_FILENAME
    else s1.fs_name.name
  let s2 := { s1 with fs_name := { s1.fs_name with name := nm } }
  let fin2 := exfatfs_add_name_to_dir_and_reset_info s2
  (fin2.1, fin.2 ++ fin2.2)

/-! ### The driving loop (`exfatfs_dent_parse_buf`) -/

/-- The assertion at the head of `exfats_parse_special_file_dentry` (note it
does not admit the TexFAT tag, although the driver's dispatch does). -/
def exfatfs_special_dentry_assertion (t : Nat) : Prop :=
  t = EXFATFS_DIR_ENTRY_TYPE_VOLUME_GUID ∨
  t = EXFATFS_DIR_ENTRY_TYPE_ALLOC_BITMAP ∨
  t = EXFATFS_DIR_ENTRY_TYPE_UPCASE_TABLE ∨
  t = EXFATFS_DIR_ENTRY_TYPE_ACT

instance (t : Nat) : Decidable (exfatfs_special_dentry_assertion t) := by
  unfold exfatfs_special_dentry_assertion; infer_instance

/-- Which handler the driver's dispatch switch selects for a classified
entry-type tag; the default branch is `invalid`. -/
inductive HandlerTag where
  | file
  | stream
  | name
  | label
  | special
  | invalid
deriving DecidableEq

def exfatfs_dispatch_tag (t : Nat) : HandlerTag :=
  if t = EXFATFS_DIR_ENTRY_TYPE_FILE ∨
     t = EXFATFS_DIR_ENTRY_TYPE_DELETED_FILE then .file
  else if t = EXFATFS_DIR_ENTRY_TYPE_FILE_STREAM ∨
          t = EXFATFS_DIR_ENTRY_TYPE_DELETED_FILE_STREAM then .stream
  else if t = EXFATFS_DIR_ENTRY_TYPE_FILE_NAME ∨
          t = EXFATFS_DIR_ENTRY_TYPE_DELETED_FILE_NAME then .name
  else if t = EXFATFS_DIR_ENTRY_TYPE_VOLUME_LABEL ∨
          t = EXFATFS_DIR_ENTRY_TYPE_VOLUME_LABEL_EMPTY then .label
  else if t = EXFATFS_DIR_ENTRY_TYPE_VOLUME_GUID ∨
          t = EXFATFS_DIR_ENTRY_TYPE_ALLOC_BITMAP ∨
          t = EXFATFS_DIR_ENTRY_TYPE_UPCASE_TABLE ∨
          t = EXFATFS_DIR_ENTRY_TYPE_TEX_FAT ∨
          t = EXFATFS_DIR_ENTRY_TYPE_ACT then .special
  else .invalid

/-- The loop-local state of one `exfatfs_dent_parse_buf` invocation:
the accumulator, the entry counters feeding the corruption heuristic, the
sticky corrupt-directory flag, and the records emitted so far. -/
structure LoopSt where
  name_inf : EXFATFS_FS_NAME_INFO
  entries_count : Nat
  invalid_entries_count : Nat
  is_corrupt_dir : Bool
  emitted : List TSK_FS_NAME
deriving DecidableEq

/-- The assume-allocated hint handed to the entry classifier:
`!is_corrupt_dir && sector_is_allocated`. -/
def exfatfs_entry_hint (st : LoopSt) : Bool :=
  !st.is_corrupt_dir && st.name_inf.sector_is_allocated

/-- Processing one putative directory entry: count it, classify it with the
current hint, and dispatch to the type handler; unclassifiable entries feed
the first-four-entries corruption heuristic and force-finalize the open
set. -/
def exfatfs_process_dentry (ext : Externals) (e : FATFS_DENTRY)
    (current_inum : Nat) (st : LoopSt) : LoopSt :=
  let entries := st.entries_count + 1
  let t := ext.exfatfs_is_dentry e (exfatfs_entry_hint st)
  match exfatfs_dispatch_tag t with
  | .file =>
      let r := exfats_parse_file_dentry st.name_inf e current_inum
      { st with name_inf := r.1, entries_count := entries,
                emitted := st.emitted ++ r.2 }
  | .stream =>
      let r := exfats_parse_file_stream_dentry st.name_inf e current_inum
      { st with name_inf := r.1, entries_count := entries,
                emitted := st.emitted ++ r.2 }
  | .name =>
      let r := exfats_parse_file_name_dentry ext st.name_inf e current_inum
      { st with name_inf := r.1, entries_count := entries,
                emitted := st.emitted ++ r.2 }
  | .label =>
      let r := exfats_parse_vol_label_dentry ext st.name_inf e current_inum
      { st with name_inf := r.1, entries_count := entries,
                emitted := st.emitted ++ r.2 }
  | .special =>
      let r := exfats_parse_special_file_dentry st.name_inf e current_inum
      { st with name_inf := r.1, entries_count := entries,
                emitted := st.emitted ++ r.2 }
  | .invalid =>
      let invalid := st.invalid_entries_count + 1
      let corrupt := st.is_corrupt_dir ||
        (decide (entries = 4) && decide (invalid = 4))
      let r := exfatfs_add_name_to_dir_and_reset_info st.name_inf
      { name_inf := r.1, entries_count := entries,
        invalid_entries_count := invalid, is_corrupt_dir := corrupt,
        emitted := st.emitted ++ r.2 }

/-- The entry loop over one sector: each entry gets the sequential inode
address `base + index`, which must lie in the valid inode range (else the
whole parse fails with the plain `TSK_ERR`, the records already emitted
staying in the sink).  Returns the advanced buffer cursor and loop state. -/
def exfatfs_process_sector_dentries (ext : Externals) (fatfs : FATFS_INFO)
    (buf : List FATFS_DENTRY) (base_inum_of_sector : Nat) :
    List Nat → Nat → LoopSt →
    Except (TSK_RETVAL_ENUM × List TSK_FS_NAME) (Nat × LoopSt)
  | [], cursor, st => .ok (cursor, st)
  | dentry_index :: rest, cursor, st =>
      let current_inum := base_inum_of_sector + dentry_index
      if ¬ fatfs_is_inum_in_range fatfs.first_inum fatfs.last_inum
             current_inum then
        .error (TSK_ERR, st.emitted)
      else
        exfatfs_process_sector_dentries ext fatfs buf base_inum_of_sector rest
          (cursor + 1)
          (exfatfs_process_dentry ext (buf.getD cursor (mkDentry []))
            current_inum st)

/-- The sector loop: translate each sector address to a base inode address
(overflow past the last valid inode fails hard with `TSK_COR`), query the
allocation oracle (a lookup failure skips the sector's entries — without
advancing the entry cursor, exactly as the C `continue` leaves the `dentry`
pointer), and run the entry loop. -/
def exfatfs_process_sectors (ext : Externals) (fatfs : FATFS_INFO)
    (buf : List FATFS_DENTRY) (a_sector_addrs : List Nat) :
    List Nat → Nat → LoopSt →
    Except (TSK_RETVAL_ENUM × List TSK_FS_NAME) (Nat × LoopSt)
  | [], cursor, st => .ok (cursor, st)
  | sector_index :: rest, cursor, st =>
      let addr := a_sector_addrs.getD sector_index 0
      let base_inum_of_sector := ext.fatfs_sect_2_inode addr
      if base_inum_of_sector > fatfs.last_inum then
        .error (TSK_COR, st.emitted)
      else if ext.fatfs_is_sectalloc addr = -1 then
        exfatfs_process_sectors ext fatfs buf a_sector_addrs rest cursor st
      else
        let st1 := { st with
                     name_inf := { st.name_inf with
                                   sector_is_allocated :=
                                     ext.fatfs_is_sectalloc addr ≠ 0 } }
        match exfatfs_process_sector_dentries ext fatfs buf
                base_inum_of_sector (List.range fatfs.dentry_cnt_se)
                cursor st1 with
        | .error r => .error r
        | .ok (cursor', st') =>
            exfatfs_process_sectors ext fatfs buf a_sector_addrs rest
              cursor' st'

/-- The freshly allocated accumulator of one parse invocation (`memset` to
zero, then a name buffer with an empty string). -/
def initNameInf : EXFATFS_FS_NAME_INFO :=
  { sector_is_allocated := false
    last_dentry_type := EXFATFS_DIR_ENTRY_TYPE_NONE
    expected_secondary_entry_count := 0
    actual_secondary_entry_count := 0
    expected_check_sum := 0
    actual_check_sum := 0
    expected_name_length := 0
    actual_name_length := 0
    fs_name := { name := []
                 meta_addr := 0
                 type := TSK_FS_NAME_TYPE_ENUM.UNDEF
                 flags := TSK_FS_NAME_FLAG_ENUM.ALLOC } }

def initLoopSt : LoopSt :=
  { name_inf := initNameInf
    entries_count := 0
    invalid_entries_count := 0
    is_corrupt_dir := false
    emitted := [] }

/-- `exfatfs_dent_parse_buf`: the buffer-parse entry point.  The pointer
arguments are modelled as `Option`s (`none` standing for NULL; the directory
sink pointer as a presence flag), checked by `fatfs_is_ptr_arg_null` —
modelled from the spec, the helper lives in `fatfs_utils.c` outside `src/`.
The only guard on the length is `a_buf_len < 0`; the result pairs the return
value with every record handed to the sink. -/
def exfatfs_dent_parse_buf (ext : Externals) (a_fatfs : Option FATFS_INFO)
    (a_fs_dir : Bool) (a_buf : Option (List FATFS_DENTRY))
    (a_buf_len : Int) (a_sector_addrs : Option (List Nat)) :
    TSK_RETVAL_ENUM × List TSK_FS_NAME :=
  match a_fatfs, a_buf, a_sector_addrs with
  | some fatfs, some buf, some addrs =>
      if !a_fs_dir then (TSK_ERR, [])
      else if a_buf_len < 0 then (TSK_ERR, [])
      else
        let num_sectors := a_buf_len.toNat / fatfs.ssize
        match exfatfs_process_sectors ext fatfs buf addrs
                (List.range num_sectors) 0 initLoopSt with
        | .error r => r
        | .ok (_, st) =>
            let fin := exfatfs_add_name_to_dir_and_reset_info st.name_inf
            (TSK_OK, st.emitted ++ fin.2)
  | _, _, _ => (TSK_ERR, [])

/-! ## Claim-side definitions -/

/-- The claim's byte-0 substitution: a deleted-file, deleted-stream or
deleted-name tag is replaced by the corresponding in-use tag (file, stream,
name respectively); every other tag stands for itself. -/
def claimInUseTag (t : Nat) : Nat :=
  if t = EXFATFS_DIR_ENTRY_TYPE_DELETED_FILE then EXFATFS_DIR_ENTRY_TYPE_FILE
  else if t = EXFATFS_DIR_ENTRY_TYPE_DELETED_FILE_STREAM then
    EXFATFS_DIR_ENTRY_TYPE_FILE_STREAM
  else if t = EXFATFS_DIR_ENTRY_TYPE_DELETED_FILE_NAME then
    EXFATFS_DIR_ENTRY_TYPE_FILE_NAME
  else t

/-- The sequence of byte values the claim says the checksum folds, in byte
position order: every position of the 32-byte entry except positions 2 and 3
of a file or deleted-file entry, with the byte-0 tag substitution applied. -/
def exfatfs_claim_checksum_bytes (d : FATFS_DENTRY) : List Nat :=
  (List.range 32).filterMap (fun i =>
    if (i = 2 ∨ i = 3) ∧
       (d.byte 0 = EXFATFS_DIR_ENTRY_TYPE_FILE ∨
        d.byte 0 = EXFATFS_DIR_ENTRY_TYPE_DELETED_FILE) then none
    else if i = 0 then some (claimInUseTag (d.byte 0))
    else some (d.byte i))

/-- A genuine 16-bit rotate-right-by-1 of the checksum followed by modular
addition of the byte, the claim's reading of the folding step. -/
def exfatfs_rotr16_add (cs b : Nat) : Nat :=
  ((cs % 2) * 32768 + cs / 2 + b) % 65536

/-- The volume-label handler as the claim's words describe it (C6): decode
exactly the declared UTF-16 character count, capped at the fixed label-length
limit; everything else as the source handler.  Used only to compare against
`exfats_parse_vol_label_dentry`. -/
def exfats_parse_vol_label_dentry_claimver (ext : Externals)
    (s : EXFATFS_FS_NAME_INFO) (d : FATFS_DENTRY) (a_inum : Nat) :
    EXFATFS_FS_NAME_INFO × List TSK_FS_NAME :=
  let fin := exfatfs_add_name_to_dir_and_reset_info s
  let s1 := { fin.1 with last_dentry_type := d.byte 0 }
  if d.byte 0 ≠ EXFATFS_DIR_ENTRY_TYPE_VOLUME_LABEL_EMPTY then
    match ext.fatfs_utf16_inode_str_2_utf8 (volLabelUnits d)
            (min (d.byte 1) EXFATFS_MAX_VOLUME_LABEL_LEN) with
    | none => (exfatfs_reset_name_info s1, fin.2)
    | some decoded =>
        let new_len :=
          (s1.actual_name_length +
            min (d.byte 1) EXFATFS_MAX_VOLUME_LABEL_LEN) % 256
        let s2 := { s1 with
                    actual_name_length := new_len
                    fs_name := { s1.fs_name with
                                 name := (s1.fs_name.name ++ decoded).take
                                           new_len } }
        let s3 :=
          if s2.actual_name_length + volLabelTag.length <
             EXFATFS_MAX_NAME_LEN_UTF8 then
            { s2 with
              fs_name := { s2.fs_name with
                           name := s2.fs_name.name ++ volLabelTag } }
          else s2
        let s4 := { s3 with fs_name := { s3.fs_name with meta_addr := a_inum } }
        let fin2 := exfatfs_add_name_to_dir_and_reset_info s4
        (fin2.1, fin.2 ++ fin2.2)
  else (s1, fin.2)

/-- One step of the driver's entry-processing core: refresh the sector
allocation status for the entry's containing sector (as the sector loop does
before its entries run), then process the entry. -/
def exfatfs_run_step (ext : Externals) (st : LoopSt)
    (it : FATFS_DENTRY × Nat × Bool) : LoopSt :=
  exfatfs_process_dentry ext it.1 it.2.1
    { st with name_inf := { st.name_inf with
                            sector_is_allocated := it.2.2 } }

/-- The driver's entry-processing core run over a list of entries, each with
its assigned inode address and the allocation status of its containing
sector. -/
def exfatfs_run_dentries (ext : Externals)
    (items : List (FATFS_DENTRY × Nat × Bool)) (st : LoopSt) : LoopSt :=
  items.foldl (exfatfs_run_step ext) st

/-! ## Concrete inputs used by witnesses and counterexamples -/

/-- A classifier that reads the type tag byte directly, an oracle reporting
every sector allocated, identity sector-to-inode translation, and a decoder
producing one 'H' byte per requested UTF-16 unit. -/
def c2_ext : Externals :=
  { exfatfs_is_dentry := fun e _ => e.byte 0
    fatfs_is_sectalloc := fun _ => 1
    fatfs_sect_2_inode := fun a => a
    fatfs_utf16_inode_str_2_utf8 := fun _ n => some (List.replicate n 72) }

def c2_state0 : EXFATFS_FS_NAME_INFO :=
  { initNameInf with sector_is_allocated := true }

/-- After the primary entry: in-use file entry declaring 9 secondaries. -/
def c2_state1 : EXFATFS_FS_NAME_INFO :=
  (exfats_parse_file_dentry c2_state0 (mkDentry [0x85, 9]) 2).1

/-- After the stream entry: in-use, declared name length 1. -/
def c2_state2 : EXFATFS_FS_NAME_INFO :=
  (exfats_parse_file_stream_dentry c2_state1 (mkDentry [0xC0, 0, 0, 1]) 3).1

/-- After one in-use name entry: the pending name holds "H". -/
def c2_state3 : EXFATFS_FS_NAME_INFO :=
  (exfats_parse_file_name_dentry c2_ext c2_state2 (mkDentry [0xC1]) 4).1

/-- A deleted-name entry, disagreeing in in-use variant with the open in-use
chain. -/
def c2_mismatch_entry : FATFS_DENTRY := mkDentry [0x41]

def c1_dentry : FATFS_DENTRY :=
  mkDentry [0x05, 2, 0xAB, 0xCD, 0x10, 7, 255, 0, 3]

def c3_dentry : FATFS_DENTRY := mkDentry [0x85, 2, 0, 0, 0]

def c3_state : EXFATFS_FS_NAME_INFO :=
  { initNameInf with sector_is_allocated := true }

/-- A classifier rejecting everything, for the driver-failure runs. -/
def c4_ext : Externals :=
  { exfatfs_is_dentry := fun _ _ => 0
    fatfs_is_sectalloc := fun _ => 1
    fatfs_sect_2_inode := fun a => a
    fatfs_utf16_inode_str_2_utf8 := fun _ _ => none }

def c4_fatfs : FATFS_INFO :=
  { ssize := 64, dentry_cnt_se := 2, first_inum := 1, last_inum := 10 }

def c4_buf : List FATFS_DENTRY := [mkDentry [], mkDentry []]

def c5_ext : Externals :=
  { exfatfs_is_dentry := fun e _ => e.byte 0
    fatfs_is_sectalloc := fun _ => 1
    fatfs_sect_2_inode := fun a => a
    fatfs_utf16_inode_str_2_utf8 := fun _ n => some (List.replicate n 65) }

def c5_fatfs : FATFS_INFO :=
  { ssize := 512, dentry_cnt_se := 16, first_inum := 2, last_inum := 100 }

/-- A decoder producing one 'A' byte per requested UTF-16 unit — so the
number of units the handler requests is visible in the emitted name. -/
def c6_ext : Externals :=
  { exfatfs_is_dentry := fun e _ => e.byte 0
    fatfs_is_sectalloc := fun _ => 1
    fatfs_sect_2_inode := fun a => a
    fatfs_utf16_inode_str_2_utf8 := fun _ n => some (List.replicate n 65) }

/-- A volume label entry declaring 255 UTF-16 characters, far beyond the
11-character label limit. -/
def c6_label : FATFS_DENTRY := mkDentry [0x83, 255]

def c6_small_label : FATFS_DENTRY := mkDentry [0x83, 3]

def c8_ext : Externals :=
  { exfatfs_is_dentry := fun _ _ => 0
    fatfs_is_sectalloc := fun _ => 1
    fatfs_sect_2_inode := fun a => a
    fatfs_utf16_inode_str_2_utf8 := fun _ _ => none }

def c8_items : List (FATFS_DENTRY × Nat × Bool) :=
  List.replicate 4 (mkDentry [], 5, true)

def c10_ext : Externals :=
  { exfatfs_is_dentry := fun e _ => e.byte 0
    fatfs_is_sectalloc := fun _ => 1
    fatfs_sect_2_inode := fun a => a
    fatfs_utf16_inode_str_2_utf8 := fun _ n => some (List.replicate n 65) }

/-- A primary entry declaring zero secondary entries. -/
def c10_file : FATFS_DENTRY := mkDentry [0x85]

/-- An in-use stream entry declaring name length 1. -/
def c10_stream : FATFS_DENTRY := mkDentry [0xC0, 0, 0, 1]

def c10_name : FATFS_DENTRY := mkDentry [0xC1]

/-- One entry set whose primary declares zero secondaries, followed by 256
secondary entries (one stream, 255 name fragments): the `uint8_t` secondary
counter wraps to 0 on the 256th secondary. -/
def c10_items : List (FATFS_DENTRY × Nat × Bool) :=
  (c10_file, 2, true) :: (c10_stream, 3, true) ::
    List.replicate 255 (c10_name, 4, true)

/-- States for the C10 witness: a stream entry arriving when exactly one
secondary is expected, and a name entry arriving as the declared last
secondary. -/
def c10_wstate_stream : EXFATFS_FS_NAME_INFO :=
  (exfats_parse_file_dentry { initNameInf with sector_is_allocated := true }
    (mkDentry [0x85, 1]) 2).1

def c10_wstate_name : EXFATFS_FS_NAME_INFO :=
  { initNameInf with
    last_dentry_type := EXFATFS_DIR_ENTRY_TYPE_FILE_NAME
    expected_secondary_entry_count := 1
    actual_secondary_entry_count := 0
    expected_name_length := 1
    actual_name_length := 1
    fs_name := { name := [65], meta_addr := 2,
                 type := TSK_FS_NAME_TYPE_ENUM.REG,
                 flags := TSK_FS_NAME_FLAG_ENUM.ALLOC } }

/-! ## Helper lemmas -/

theorem foldl_skip_filterMap {p : Nat → Prop} [DecidablePred p]
    (f : Nat → Nat → Nat) (g : Nat → Nat) :
    ∀ (l : List Nat) (a : Nat),
      l.foldl (fun acc i => if p i then acc else f acc (g i)) a =
        (l.filterMap fun i => if p i then none else some (g i)).foldl f a := by
  intro l
  induction l with
  | nil => intro a; rfl
  | cons x t ih =>
      intro a
      by_cases h : p x
      · simp [h, ih]
      · simp [h, ih]

theorem exfatfs_checksum_step_eq_rotr (cs b : Nat) (h : cs < 65536) :
    exfatfs_checksum_step cs b = exfatfs_rotr16_add cs b := by
  unfold exfatfs_checksum_step exfatfs_rotr16_add
  rw [Nat.shiftLeft_eq, Nat.shiftRight_eq_div_pow, Nat.pow_one,
    Nat.mul_comm cs (2 ^ 15)]
  have hb : cs / 2 < 2 ^ 15 := by omega
  rw [← Nat.mul_add_lt_is_or hb cs]
  have h15 : (2 : Nat) ^ 15 = 32768 := by norm_num
  rw [h15]
  omega

theorem exfatfs_foldl_step_eq_rotr (l : List Nat) :
    ∀ cs : Nat, cs < 65536 →
      l.foldl exfatfs_checksum_step cs = l.foldl exfatfs_rotr16_add cs := by
  induction l with
  | nil => intro cs _; rfl
  | cons b t ih =>
      intro cs h
      simp only [List.foldl_cons]
      rw [exfatfs_checksum_step_eq_rotr cs b h]
      exact ih _ (Nat.mod_lt _ (by norm_num))

/-! ## Claims -/

/-- C1: The checksum update operation, applied to any 32-byte directory entry
of file/deleted-file, stream/deleted-stream, or name/deleted-name type, folds
every byte position into the running 16-bit checksum by a rotate-right-by-1 of
the checksum followed by modular addition of the byte, except that byte
positions 2 and 3 are skipped when the entry is a file or deleted-file entry;
and at byte position 0 a deleted-file, deleted-stream, or deleted-name tag is
replaced by the corresponding in-use tag value before folding, while every
other tag folds its literal value. -/
theorem exfatfs_update_checksum_is_claim_fold (d : FATFS_DENTRY) (cs : Nat)
    (htag : d.byte 0 = EXFATFS_DIR_ENTRY_TYPE_FILE ∨
            d.byte 0 = EXFATFS_DIR_ENTRY_TYPE_DELETED_FILE ∨
            d.byte 0 = EXFATFS_DIR_ENTRY_TYPE_FILE_STREAM ∨
            d.byte 0 = EXFATFS_DIR_ENTRY_TYPE_DELETED_FILE_STREAM ∨
            d.byte 0 = EXFATFS_DIR_ENTRY_TYPE_FILE_NAME ∨
            d.byte 0 = EXFATFS_DIR_ENTRY_TYPE_DELETED_FILE_NAME)
    (hcs : cs < 65536) :
    exfatfs_update_file_entry_set_checksum d cs =
      (exfatfs_claim_checksum_bytes d).foldl exfatfs_rotr16_add cs := by
  unfold exfatfs_update_file_entry_set_checksum
  rw [foldl_skip_filterMap]
  have hbytes :
      ((List.range 32).filterMap fun i =>
        if exfatfs_checksum_skip (d.byte 0) i then none
        else some (exfatfs_checksum_byte d i)) =
      exfatfs_claim_checksum_bytes d := by
    unfold exfatfs_claim_checksum_bytes
    apply List.filterMap_congr
    intro i _
    by_cases hi : i = 0
    · subst hi
      simp [exfatfs_checksum_skip, exfatfs_checksum_byte, claimInUseTag]
    · by_cases h2 : (i = 2 ∨ i = 3) <;>
        by_cases h3 : (d.byte 0 = EXFATFS_DIR_ENTRY_TYPE_FILE ∨
                       d.byte 0 = EXFATFS_DIR_ENTRY_TYPE_DELETED_FILE) <;>
        simp [exfatfs_checksum_skip, exfatfs_checksum_byte, hi, h2, h3]
  rw [hbytes]
  exact exfatfs_foldl_step_eq_rotr _ cs hcs

theorem exfatfs_update_checksum_is_claim_fold_witness :
    exfatfs_update_file_entry_set_checksum c1_dentry 100 =
      (exfatfs_claim_checksum_bytes c1_dentry).foldl exfatfs_rotr16_add 100 :=
  exfatfs_update_checksum_is_claim_fold c1_dentry 100 (by decide) (by decide)

/-- C2 counterexample: a stream/name secondary entry whose in-use variant
disagrees with its predecessor does NOT abandon the set with zero name
records: the partially assembled name of the set ("H", attributed to the
set's primary-entry inode address 2) is emitted to the sink by the
force-finalize in the mismatch branch.  The three prior steps (file, stream,
first name entry of the same set) emitted nothing, so the record belongs to
the abandoned set. -/
theorem exfats_parse_mismatch_emits_partial_name :
    (exfats_parse_file_dentry c2_state0 (mkDentry [0x85, 9]) 2).2 = [] ∧
    (exfats_parse_file_stream_dentry c2_state1 (mkDentry [0xC0, 0, 0, 1]) 3).2
      = [] ∧
    (exfats_parse_file_name_dentry c2_ext c2_state2 (mkDentry [0xC1]) 4).2
      = [] ∧
    (exfats_parse_file_name_dentry c2_ext c2_state3 c2_mismatch_entry 5).2 =
      [{ name := [72], meta_addr := 2, type := TSK_FS_NAME_TYPE_ENUM.REG,
         flags := TSK_FS_NAME_FLAG_ENUM.ALLOC }] := by
  decide

/-- C2 amended: for every stream or name-fragment entry whose in-use variant
disagrees with the in-use variant established by the preceding entry of the
open set, the set under assembly is force-finalized — its partially assembled
name, if non-empty, is emitted as a record — the accumulator is reset, and
processing resumes cleanly on the next entry without a parse failure. -/
theorem exfats_parse_inuse_mismatch_force_finalizes (ext : Externals)
    (s s' : EXFATFS_FS_NAME_INFO) (d d' : FATFS_DENTRY) (i i' : Nat)
    (hstream : (s.last_dentry_type = EXFATFS_DIR_ENTRY_TYPE_FILE ∧
                d.byte 0 = EXFATFS_DIR_ENTRY_TYPE_DELETED_FILE_STREAM) ∨
               (s.last_dentry_type = EXFATFS_DIR_ENTRY_TYPE_DELETED_FILE ∧
                d.byte 0 = EXFATFS_DIR_ENTRY_TYPE_FILE_STREAM))
    (hname : ((s'.last_dentry_type = EXFATFS_DIR_ENTRY_TYPE_FILE_STREAM ∨
               s'.last_dentry_type = EXFATFS_DIR_ENTRY_TYPE_FILE_NAME) ∧
              d'.byte 0 = EXFATFS_DIR_ENTRY_TYPE_DELETED_FILE_NAME) ∨
             ((s'.last_dentry_type =
                 EXFATFS_DIR_ENTRY_TYPE_DELETED_FILE_STREAM ∨
               s'.last_dentry_type =
                 EXFATFS_DIR_ENTRY_TYPE_DELETED_FILE_NAME) ∧
              d'.byte 0 = EXFATFS_DIR_ENTRY_TYPE_FILE_NAME)) :
    exfats_parse_file_stream_dentry s d i =
      exfatfs_add_name_to_dir_and_reset_info s ∧
    exfats_parse_file_name_dentry ext s' d' i' =
      exfatfs_add_name_to_dir_and_reset_info s' := by
  constructor
  · unfold exfats_parse_file_stream_dentry
    rcases hstream with ⟨h1, h2⟩ | ⟨h1, h2⟩ <;>
      simp [h1, h2, EXFATFS_DIR_ENTRY_TYPE_FILE,
        EXFATFS_DIR_ENTRY_TYPE_DELETED_FILE,
        EXFATFS_DIR_ENTRY_TYPE_FILE_STREAM,
        EXFATFS_DIR_ENTRY_TYPE_DELETED_FILE_STREAM]
  · unfold exfats_parse_file_name_dentry
    rcases hname with ⟨h1 | h1, h2⟩ | ⟨h1 | h1, h2⟩ <;>
      simp [h1, h2, EXFATFS_DIR_ENTRY_TYPE_FILE_STREAM,
        EXFATFS_DIR_ENTRY_TYPE_DELETED_FILE_STREAM,
        EXFATFS_DIR_ENTRY_TYPE_FILE_NAME,
        EXFATFS_DIR_ENTRY_TYPE_DELETED_FILE_NAME]

theorem exfats_parse_inuse_mismatch_force_finalizes_witness :
    exfats_parse_file_stream_dentry c2_state1 (mkDentry [0x40]) 3 =
      exfatfs_add_name_to_dir_and_reset_info c2_state1 ∧
    exfats_parse_file_name_dentry c2_ext c2_state3 c2_mismatch_entry 5 =
      exfatfs_add_name_to_dir_and_reset_info c2_state3 :=
  exfats_parse_inuse_mismatch_force_finalizes c2_ext c2_state1 c2_state3
    (mkDentry [0x40]) c2_mismatch_entry 3 5 (by decide) (by decide)

/-- C3: When the primary (file) entry handler runs, the resulting record's
allocation flag is Allocated if and only if both the containing sector was
reported allocated and the entry's own type tag is the in-use File tag; in
every other case (including a deleted-file tag inside an allocated sector)
the flag is Unallocated. -/
theorem exfats_parse_file_dentry_alloc_flag (s : EXFATFS_FS_NAME_INFO)
    (d : FATFS_DENTRY) (a_inum : Nat)
    (htag : d.byte 0 = EXFATFS_DIR_ENTRY_TYPE_FILE ∨
            d.byte 0 = EXFATFS_DIR_ENTRY_TYPE_DELETED_FILE) :
    (exfats_parse_file_dentry s d a_inum).1.fs_name.flags =
        TSK_FS_NAME_FLAG_ENUM.ALLOC ↔
      (s.sector_is_allocated = true ∧
       d.byte 0 = EXFATFS_DIR_ENTRY_TYPE_FILE) := by
  by_cases h : (s.sector_is_allocated = true ∧
      d.byte 0 = EXFATFS_DIR_ENTRY_TYPE_FILE) <;>
    simp [exfats_parse_file_dentry, h]

theorem exfats_parse_file_dentry_alloc_flag_witness :
    c3_state.sector_is_allocated = true ∧
    c3_dentry.byte 0 = EXFATFS_DIR_ENTRY_TYPE_FILE ∧
    (exfats_parse_file_dentry c3_state c3_dentry 9).1.fs_name.flags =
      TSK_FS_NAME_FLAG_ENUM.ALLOC :=
  ⟨by decide, by decide,
    (exfats_parse_file_dentry_alloc_flag c3_state c3_dentry 9
      (by decide)).mpr (by decide)⟩

/-- C7: The finalize-and-reset operation emits a record to the sink if and
only if the pending name is non-empty, then unconditionally resets the
accumulator; calling it on an already-reset accumulator is a no-op (no record,
no error), so finalize is idempotent. -/
theorem exfatfs_finalize_emits_iff_nonempty_and_idempotent
    (s : EXFATFS_FS_NAME_INFO) :
    ((exfatfs_add_name_to_dir_and_reset_info s).2 = [] ↔
      cstrVal s.fs_name.name = []) ∧
    (exfatfs_add_name_to_dir_and_reset_info s).1 =
      exfatfs_reset_name_info s ∧
    exfatfs_add_name_to_dir_and_reset_info
        (exfatfs_add_name_to_dir_and_reset_info s).1 =
      ((exfatfs_add_name_to_dir_and_reset_info s).1, []) := by
  refine ⟨?_, rfl, rfl⟩
  unfold exfatfs_add_name_to_dir_and_reset_info
  by_cases h : 0 < (cstrVal s.fs_name.name).length
  · simp [h, List.length_pos.mp h]
  · have hlen : (cstrVal s.fs_name.name).length = 0 := by omega
    simp [h, List.eq_nil_of_length_eq_zero hlen]

/-- Reduction of the driver for present arguments and a non-negative
length. -/
theorem exfatfs_dent_parse_buf_some (ext : Externals) (fatfs : FATFS_INFO)
    (buf : List FATFS_DENTRY) (addrs : List Nat) (blen : Int)
    (hb : ¬ blen < 0) :
    exfatfs_dent_parse_buf ext (some fatfs) true (some buf) blen
        (some addrs) =
      (match exfatfs_process_sectors ext fatfs buf addrs
          (List.range (blen.toNat / fatfs.ssize)) 0 initLoopSt with
       | .error r => r
       | .ok (_, st) =>
           (TSK_OK, st.emitted ++
             (exfatfs_add_name_to_dir_and_reset_info st.name_inf).2)) := by
  simp [exfatfs_dent_parse_buf, hb]

/-- C4 counterexample: a parse in which an individual entry's sequential
inode address (11) exceeds the valid inode range (1..10) fails with the plain
`TSK_ERR` — the very code an argument error (here: a NULL file-system handle)
produces — not with a structural-corruption code distinct from it. -/
theorem exfatfs_entry_inum_overflow_plain_error :
    exfatfs_dent_parse_buf c4_ext (some c4_fatfs) true (some c4_buf) 64
        (some [10]) = (TSK_ERR, []) ∧
    exfatfs_dent_parse_buf c4_ext none true (some c4_buf) 64
        (some [10]) = (TSK_ERR, []) ∧
    TSK_ERR ≠ TSK_COR := by
  decide

/-- C4 amended: a sector base inode address exceeding the file system's last
valid inode makes the parse release its resources and fail with the
structural-corruption code `TSK_COR` (distinct from the argument-error code
`TSK_ERR`); but an individual entry's sequential inode address falling
outside the valid inode range makes the parse fail with the plain `TSK_ERR`,
the same code argument errors use. -/
theorem exfatfs_inum_range_error_codes (ext : Externals) (fatfs : FATFS_INFO)
    (buf : List FATFS_DENTRY) (addrs : List Nat) (blen : Int)
    (hb : ¬ blen < 0) (hs : 0 < blen.toNat / fatfs.ssize) :
    (fatfs.last_inum < ext.fatfs_sect_2_inode (addrs.getD 0 0) →
      exfatfs_dent_parse_buf ext (some fatfs) true (some buf) blen
          (some addrs) = (TSK_COR, [])) ∧
    (ext.fatfs_sect_2_inode (addrs.getD 0 0) ≤ fatfs.last_inum →
     ext.fatfs_is_sectalloc (addrs.getD 0 0) ≠ -1 →
     0 < fatfs.dentry_cnt_se →
     ext.fatfs_sect_2_inode (addrs.getD 0 0) < fatfs.first_inum →
      exfatfs_dent_parse_buf ext (some fatfs) true (some buf) blen
          (some addrs) = (TSK_ERR, [])) := by
  obtain ⟨m, hm⟩ : ∃ m, blen.toNat / fatfs.ssize = m + 1 :=
    ⟨blen.toNat / fatfs.ssize - 1, by omega⟩
  have hrange : List.range (blen.toNat / fatfs.ssize) =
      0 :: List.map Nat.succ (List.range m) := by
    rw [hm, List.range_succ_eq_map]
  constructor
  · intro hgt
    rw [exfatfs_dent_parse_buf_some ext fatfs buf addrs blen hb, hrange]
    have hsec : exfatfs_process_sectors ext fatfs buf addrs
        (0 :: List.map Nat.succ (List.range m)) 0 initLoopSt =
        .error (TSK_COR, []) := by
      unfold exfatfs_process_sectors
      rw [if_pos hgt]
      rfl
    rw [hsec]
  · intro hle halloc hcnt hfirst
    rw [exfatfs_dent_parse_buf_some ext fatfs buf addrs blen hb, hrange]
    obtain ⟨k, hk⟩ : ∃ k, fatfs.dentry_cnt_se = k + 1 :=
      ⟨fatfs.dentry_cnt_se - 1, by omega⟩
    have hent : ∀ st1 : LoopSt, st1.emitted = [] →
        exfatfs_process_sector_dentries ext fatfs buf
          (ext.fatfs_sect_2_inode (addrs.getD 0 0))
          (List.range fatfs.dentry_cnt_se) 0 st1 =
          .error (TSK_ERR, []) := by
      intro st1 hem
      rw [hk, List.range_succ_eq_map]
      unfold exfatfs_process_sector_dentries
      rw [if_pos, hem]
      intro hcontra
      have : fatfs.first_inum ≤ ext.fatfs_sect_2_inode (addrs.getD 0 0) + 0 ∧
          ext.fatfs_sect_2_inode (addrs.getD 0 0) + 0 ≤ fatfs.last_inum := by
        simpa [fatfs_is_inum_in_range] using hcontra
      omega
    have hsec : exfatfs_process_sectors ext fatfs buf addrs
        (0 :: List.map Nat.succ (List.range m)) 0 initLoopSt =
        .error (TSK_ERR, []) := by
      unfold exfatfs_process_sectors
      have hngt : ¬ ext.fatfs_sect_2_inode (addrs.getD 0 0) >
          fatfs.last_inum := by omega
      simp only [List.getD_eq_getElem?_getD] at hngt halloc hent
      simp [hngt, halloc, hent, initLoopSt]
    rw [hsec]

theorem exfatfs_inum_range_error_codes_witness :
    exfatfs_dent_parse_buf c4_ext (some c4_fatfs) true (some c4_buf) 64
        (some [20]) = (TSK_COR, []) :=
  (exfatfs_inum_range_error_codes c4_ext c4_fatfs c4_buf [20] 64
    (by decide) (by decide)).1 (by decide)

/-- C5: with every pointer argument present and a buffer length of zero, the
parse does not fail with an argument error: the only runtime guard is
`a_buf_len < 0`, so a zero length sails through, processes zero sectors and
returns success — although the code's own `assert(a_buf_len > 0)` (compiled
out in release builds) documents that a zero length was meant to be rejected.
A negative length and a NULL argument do produce the argument error. -/
theorem exfatfs_dent_parse_buf_zero_len_ok :
    exfatfs_dent_parse_buf c5_ext (some c5_fatfs) true (some []) 0
        (some []) = (TSK_OK, []) ∧
    exfatfs_dent_parse_buf c5_ext (some c5_fatfs) true (some []) (-1)
        (some []) = (TSK_ERR, []) ∧
    exfatfs_dent_parse_buf c5_ext none true (some []) 512
        (some []) = (TSK_ERR, []) := by
  decide

set_option maxRecDepth 8000 in
/-- C6 counterexample: the volume-label handler does not decode "exactly the
declared UTF-16 character count, capped at the fixed label-length limit": on
a label declaring 255 characters it requests 256 units from the decoder (the
declared count plus one, uncapped), so its result differs from the handler
the claim describes. -/
theorem exfats_parse_vol_label_uncapped_count :
    exfats_parse_vol_label_dentry c6_ext initNameInf c6_label 7 ≠
      exfats_parse_vol_label_dentry_claimver c6_ext initNameInf c6_label 7 := by
  decide

/-- C9: the driver's dispatch switch sends TexFAT-classified entries to the
special/virtual-file handler, but the TexFAT tag does not satisfy that
handler's entry-type assertion (which admits only volume-GUID,
allocation-bitmap, up-case-table and allocation-control-table), contradicting
the claim that every dispatched entry satisfies the assertion. -/
theorem exfatfs_texfat_dispatched_but_assertion_fails :
    exfatfs_dispatch_tag EXFATFS_DIR_ENTRY_TYPE_TEX_FAT = HandlerTag.special ∧
    ¬ exfatfs_special_dentry_assertion EXFATFS_DIR_ENTRY_TYPE_TEX_FAT := by
  decide

/-- C6 amended: for every non-empty volume-label entry, the handler asks the
decoder for the declared UTF-16 character count PLUS ONE units, with no cap
at the label-length limit; on decode failure the label is discarded silently
with no record emitted; on success the name is truncated to the declared
count, the fixed suffix tag is appended if it fits within capacity, the inode
address is recorded and the record is finalized immediately; an empty-variant
label entry produces no name record. -/
theorem exfats_parse_vol_label_dentry_behavior (ext : Externals)
    (s : EXFATFS_FS_NAME_INFO) (d : FATFS_DENTRY) (a_inum : Nat) :
    (d.byte 0 = EXFATFS_DIR_ENTRY_TYPE_VOLUME_LABEL_EMPTY →
      exfats_parse_vol_label_dentry ext s d a_inum =
        ({ exfatfs_reset_name_info s with
           last_dentry_type := EXFATFS_DIR_ENTRY_TYPE_VOLUME_LABEL_EMPTY },
         (exfatfs_add_name_to_dir_and_reset_info s).2)) ∧
    (d.byte 0 = EXFATFS_DIR_ENTRY_TYPE_VOLUME_LABEL →
      (ext.fatfs_utf16_inode_str_2_utf8 (volLabelUnits d) (d.byte 1 + 1) =
          none →
        exfats_parse_vol_label_dentry ext s d a_inum =
          (exfatfs_reset_name_info s,
           (exfatfs_add_name_to_dir_and_reset_info s).2)) ∧
      (∀ decoded,
        ext.fatfs_utf16_inode_str_2_utf8 (volLabelUnits d) (d.byte 1 + 1) =
            some decoded →
        exfats_parse_vol_label_dentry ext s d a_inum =
          (exfatfs_reset_name_info s,
           (exfatfs_add_name_to_dir_and_reset_info s).2 ++
             (let nm := cstrVal (decoded.take (d.byte 1) ++
                 (if d.byte 1 + volLabelTag.length <
                     EXFATFS_MAX_NAME_LEN_UTF8 then volLabelTag else []))
              if 0 < nm.length then
                [{ name := nm, meta_addr := a_inum,
                   type := TSK_FS_NAME_TYPE_ENUM.UNDEF,
                   flags := TSK_FS_NAME_FLAG_ENUM.ALLOC }]
              else [])))) := by
  have hb1 : d.byte 1 < 256 := Nat.mod_lt _ (by norm_num)
  refine ⟨fun hemp => ?_, fun hlab => ⟨fun hnone => ?_, fun decoded hdec => ?_⟩⟩
  · unfold exfats_parse_vol_label_dentry
    rw [hemp]
    rfl
  · unfold exfats_parse_vol_label_dentry
    rw [hlab, hnone]
    rfl
  · unfold exfats_parse_vol_label_dentry
    rw [hlab, hdec, if_pos (by decide :
      EXFATFS_DIR_ENTRY_TYPE_VOLUME_LABEL ≠
        EXFATFS_DIR_ENTRY_TYPE_VOLUME_LABEL_EMPTY)]
    have hlen2 : d.byte 1 % 256 = d.byte 1 := Nat.mod_eq_of_lt hb1
    by_cases hfits : d.byte 1 + volLabelTag.length <
        EXFATFS_MAX_NAME_LEN_UTF8 <;>
      simp [exfatfs_add_name_to_dir_and_reset_info, exfatfs_reset_name_info,
        mkEmittedName, cstrVal, hlen2, hfits]

theorem exfats_parse_vol_label_dentry_behavior_witness :
    (exfats_parse_vol_label_dentry c6_ext initNameInf c6_small_label 7).2.length
      = 1 := by
  have h := ((exfats_parse_vol_label_dentry_behavior c6_ext initNameInf
    c6_small_label 7).2 (by decide)).2 (List.replicate 4 65) (by decide)
  rw [h]
  decide

/-! C8 helper lemmas about the driving loop's corruption flag. -/

theorem exfatfs_run_step_entries (ext : Externals) (st : LoopSt)
    (it : FATFS_DENTRY × Nat × Bool) :
    (exfatfs_run_step ext st it).entries_count = st.entries_count + 1 := by
  unfold exfatfs_run_step exfatfs_process_dentry
  dsimp only
  split <;> rfl

theorem exfatfs_run_step_corrupt_mono (ext : Externals) (st : LoopSt)
    (it : FATFS_DENTRY × Nat × Bool) (h : st.is_corrupt_dir = true) :
    (exfatfs_run_step ext st it).is_corrupt_dir = true := by
  unfold exfatfs_run_step exfatfs_process_dentry
  dsimp only
  split <;> simp [h]

theorem exfatfs_run_step_corrupt_stable (ext : Externals) (st : LoopSt)
    (it : FATFS_DENTRY × Nat × Bool) (h : st.entries_count ≠ 3) :
    (exfatfs_run_step ext st it).is_corrupt_dir = st.is_corrupt_dir := by
  have h4 : ¬ (st.entries_count + 1 = 4) := by omega
  unfold exfatfs_run_step exfatfs_process_dentry
  dsimp only
  split <;> simp [h4]

theorem exfatfs_run_step_clean (ext : Externals)
    (it : FATFS_DENTRY × Nat × Bool) (st : LoopSt)
    (hc : st.is_corrupt_dir = false) :
    (exfatfs_run_step ext st it).invalid_entries_count =
      (if exfatfs_dispatch_tag (ext.exfatfs_is_dentry it.1 it.2.2) =
          HandlerTag.invalid
       then st.invalid_entries_count + 1 else st.invalid_entries_count) ∧
    (exfatfs_run_step ext st it).is_corrupt_dir =
      (decide (exfatfs_dispatch_tag (ext.exfatfs_is_dentry it.1 it.2.2) =
          HandlerTag.invalid) &&
       decide (st.entries_count + 1 = 4) &&
       decide (st.invalid_entries_count + 1 = 4)) := by
  unfold exfatfs_run_step exfatfs_process_dentry exfatfs_entry_hint
  dsimp only
  rw [hc]
  simp only [Bool.not_false, Bool.true_and]
  split <;> rename_i hsplit <;> simp [hsplit]

theorem exfatfs_run_dentries_corrupt_mono (ext : Externals)
    (items : List (FATFS_DENTRY × Nat × Bool)) :
    ∀ st : LoopSt, st.is_corrupt_dir = true →
      (exfatfs_run_dentries ext items st).is_corrupt_dir = true := by
  induction items with
  | nil => intro st h; exact h
  | cons a t ih =>
      intro st h
      have h1 := exfatfs_run_step_corrupt_mono ext st a h
      simpa [exfatfs_run_dentries] using ih _ h1

theorem exfatfs_run_dentries_corrupt_stable (ext : Externals)
    (items : List (FATFS_DENTRY × Nat × Bool)) :
    ∀ st : LoopSt, 4 ≤ st.entries_count →
      (exfatfs_run_dentries ext items st).is_corrupt_dir =
        st.is_corrupt_dir := by
  induction items with
  | nil => intro st _; rfl
  | cons a t ih =>
      intro st h
      have hstep := exfatfs_run_step_corrupt_stable ext st a (by omega)
      have hent := exfatfs_run_step_entries ext st a
      have hrest := ih (exfatfs_run_step ext st a) (by omega)
      simp only [exfatfs_run_dentries, List.foldl_cons] at hrest ⊢
      rw [hrest, hstep]

/-- C8: during a single buffer parse, the corrupt-directory flag becomes set
exactly when the first four entries processed are all unclassifiable; once
set it is never cleared for the remainder of the run; and while set, the hint
handed to the entry classifier is false (the assume-allocated hint is
suppressed even for allocated sectors). -/
theorem exfatfs_corrupt_dir_flag_behavior (ext : Externals) :
    (∀ (items : List (FATFS_DENTRY × Nat × Bool)) (st0 : LoopSt),
      st0.entries_count = 0 → st0.invalid_entries_count = 0 →
      st0.is_corrupt_dir = false →
      ((exfatfs_run_dentries ext items st0).is_corrupt_dir = true ↔
        (4 ≤ items.length ∧ ∀ it ∈ items.take 4,
          exfatfs_dispatch_tag (ext.exfatfs_is_dentry it.1 it.2.2) =
            HandlerTag.invalid))) ∧
    (∀ (items : List (FATFS_DENTRY × Nat × Bool)) (st : LoopSt),
      st.is_corrupt_dir = true →
      (exfatfs_run_dentries ext items st).is_corrupt_dir = true) ∧
    (∀ st : LoopSt, st.is_corrupt_dir = true →
      exfatfs_entry_hint st = false) := by
  refine ⟨?_, exfatfs_run_dentries_corrupt_mono ext, ?_⟩
  swap
  · intro st h; simp [exfatfs_entry_hint, h]
  intro items st0 h0e h0i h0c
  have clean_step : ∀ (st : LoopSt) it, st.is_corrupt_dir = false →
      st.entries_count + 1 ≠ 4 →
      (exfatfs_run_step ext st it).is_corrupt_dir = false := by
    intro st it hc hne
    rw [(exfatfs_run_step_clean ext it st hc).2]
    simp [hne]
  rcases items with _ | ⟨a, items⟩
  · simp [exfatfs_run_dentries, h0c]
  rcases items with _ | ⟨b, items⟩
  · have h1c : (exfatfs_run_step ext st0 a).is_corrupt_dir = false :=
      clean_step st0 a h0c (by omega)
    simp [exfatfs_run_dentries, h1c]
  rcases items with _ | ⟨c, items⟩
  · have h1c : (exfatfs_run_step ext st0 a).is_corrupt_dir = false :=
      clean_step st0 a h0c (by omega)
    have h1e := exfatfs_run_step_entries ext st0 a
    have h2c : (exfatfs_run_step ext (exfatfs_run_step ext st0 a)
        b).is_corrupt_dir = false :=
      clean_step _ b h1c (by omega)
    simp [exfatfs_run_dentries, h2c]
  rcases items with _ | ⟨dd, rest⟩
  · have h1c : (exfatfs_run_step ext st0 a).is_corrupt_dir = false :=
      clean_step st0 a h0c (by omega)
    have h1e := exfatfs_run_step_entries ext st0 a
    have h2c : (exfatfs_run_step ext (exfatfs_run_step ext st0 a)
        b).is_corrupt_dir = false :=
      clean_step _ b h1c (by omega)
    have h2e := exfatfs_run_step_entries ext (exfatfs_run_step ext st0 a) b
    have h3c : (exfatfs_run_step ext (exfatfs_run_step ext
        (exfatfs_run_step ext st0 a) b) c).is_corrupt_dir = false :=
      clean_step _ c h2c (by omega)
    simp [exfatfs_run_dentries, h3c]
  · set st1 := exfatfs_run_step ext st0 a with hst1
    set st2 := exfatfs_run_step ext st1 b with hst2
    set st3 := exfatfs_run_step ext st2 c with hst3
    set st4 := exfatfs_run_step ext st3 dd with hst4
    have h1c : st1.is_corrupt_dir = false :=
      clean_step st0 a h0c (by omega)
    have h1e : st1.entries_count = 1 := by
      rw [hst1, exfatfs_run_step_entries, h0e]
    have h1i : st1.invalid_entries_count =
        if exfatfs_dispatch_tag (ext.exfatfs_is_dentry a.1 a.2.2) =
            HandlerTag.invalid then 1 else 0 := by
      rw [hst1, (exfatfs_run_step_clean ext a st0 h0c).1, h0i]
    have h2c : st2.is_corrupt_dir = false :=
      clean_step st1 b h1c (by omega)
    have h2e : st2.entries_count = 2 := by
      rw [hst2, exfatfs_run_step_entries, h1e]
    have h2i : st2.invalid_entries_count =
        (if exfatfs_dispatch_tag (ext.exfatfs_is_dentry b.1 b.2.2) =
            HandlerTag.invalid then st1.invalid_entries_count + 1
         else st1.invalid_entries_count) := by
      rw [hst2, (exfatfs_run_step_clean ext b st1 h1c).1]
    have h3c : st3.is_corrupt_dir = false :=
      clean_step st2 c h2c (by omega)
    have h3e : st3.entries_count = 3 := by
      rw [hst3, exfatfs_run_step_entries, h2e]
    have h3i : st3.invalid_entries_count =
        (if exfatfs_dispatch_tag (ext.exfatfs_is_dentry c.1 c.2.2) =
            HandlerTag.invalid then st2.invalid_entries_count + 1
         else st2.invalid_entries_count) := by
      rw [hst3, (exfatfs_run_step_clean ext c st2 h2c).1]
    have h4c : st4.is_corrupt_dir =
        (decide (exfatfs_dispatch_tag (ext.exfatfs_is_dentry dd.1 dd.2.2) =
            HandlerTag.invalid) &&
         decide (st3.entries_count + 1 = 4) &&
         decide (st3.invalid_entries_count + 1 = 4)) := by
      rw [hst4, (exfatfs_run_step_clean ext dd st3 h3c).2]
    have h4e : st4.entries_count = 4 := by
      rw [hst4, exfatfs_run_step_entries, h3e]
    have hrest : (exfatfs_run_dentries ext rest st4).is_corrupt_dir =
        st4.is_corrupt_dir :=
      exfatfs_run_dentries_corrupt_stable ext rest st4 (by omega)
    have hfold : exfatfs_run_dentries ext (a :: b :: c :: dd :: rest) st0 =
        exfatfs_run_dentries ext rest st4 := by
      simp only [exfatfs_run_dentries, List.foldl_cons, ← hst1, ← hst2,
        ← hst3, ← hst4]
    rw [hfold, hrest, h4c, h3e]
    by_cases pa : exfatfs_dispatch_tag (ext.exfatfs_is_dentry a.1 a.2.2) =
        HandlerTag.invalid <;>
      by_cases pb : exfatfs_dispatch_tag (ext.exfatfs_is_dentry b.1 b.2.2) =
          HandlerTag.invalid <;>
        by_cases pc : exfatfs_dispatch_tag (ext.exfatfs_is_dentry c.1 c.2.2) =
            HandlerTag.invalid <;>
          by_cases pd : exfatfs_dispatch_tag
              (ext.exfatfs_is_dentry dd.1 dd.2.2) = HandlerTag.invalid <;>
            simp [pa, pb, pc, pd, h1i, h2i, h3i]

theorem exfatfs_corrupt_dir_flag_behavior_witness :
    (exfatfs_run_dentries c8_ext c8_items initLoopSt).is_corrupt_dir =
      true :=
  ((exfatfs_corrupt_dir_flag_behavior c8_ext).1 c8_items initLoopSt rfl rfl
    rfl).mpr (by decide)

set_option maxRecDepth 200000 in
/-- C10 counterexample: the primary entry of the set declares zero secondary
entries (`c10_file.byte 1 = 0`), so the observed secondary count exceeds the
declared count from the first secondary entry on, and the claim says the
secondary-count finalization path can then never fire for this set — the
pending name could only be emitted by a later set-opening or illegal entry or
the end-of-buffer flush.  But the `uint8_t` counter wraps: after 256
secondary entries (one stream and 255 name fragments, no set-opening or
illegal entry anywhere, no flush applied), the comparison 256 % 256 = 0
succeeds and exactly one record is emitted by the count path. -/
theorem exfatfs_secondary_count_wraparound_fires :
    c10_file.byte 1 = 0 ∧
    (exfatfs_run_dentries c10_ext c10_items initLoopSt).emitted.length
      = 1 := by
  constructor
  · rfl
  · rfl

/-- C10 amended: natural finalization via the secondary-count path fires,
after a stream or name-fragment entry is accepted (in-use variants agreeing,
and for a name entry a fitting, successfully decoded copy), exactly when the
incremented observed secondary count equals the declared expected count
modulo 256 — the counter is an 8-bit value, so when the observed count
exceeds the declared one the path fires again once the counter wraps around
(256 further secondaries), as the counterexample run shows. -/
theorem exfatfs_secondary_count_finalize_mod256 (ext : Externals)
    (s s' : EXFATFS_FS_NAME_INFO) (d d' : FATFS_DENTRY) (i i' : Nat)
    (bs : List Nat)
    (hlast : s.last_dentry_type = EXFATFS_DIR_ENTRY_TYPE_FILE)
    (hd : d.byte 0 = EXFATFS_DIR_ENTRY_TYPE_FILE_STREAM)
    (hlast' : s'.last_dentry_type = EXFATFS_DIR_ENTRY_TYPE_FILE_NAME)
    (hd' : d'.byte 0 = EXFATFS_DIR_ENTRY_TYPE_FILE_NAME)
    (hcap : s'.actual_name_length +
        exfatfs_name_chars_to_copy s'.expected_name_length
          s'.actual_name_length < EXFATFS_MAX_NAME_LEN_UTF8 - 1)
    (hdec : ext.fatfs_utf16_inode_str_2_utf8 (nameEntryUnits d')
        (exfatfs_name_chars_to_copy s'.expected_name_length
          s'.actual_name_length) = some bs) :
    ((exfats_parse_file_stream_dentry s d i).1.last_dentry_type =
        EXFATFS_DIR_ENTRY_TYPE_NONE ↔
      (s.actual_secondary_entry_count + 1) % 256 =
        s.expected_secondary_entry_count) ∧
    ((exfats_parse_file_name_dentry ext s' d' i').1.last_dentry_type =
        EXFATFS_DIR_ENTRY_TYPE_NONE ↔
      (s'.actual_secondary_entry_count + 1) % 256 =
        s'.expected_secondary_entry_count) := by
  constructor
  · unfold exfats_parse_file_stream_dentry
    rw [if_neg (by simp [hlast, EXFATFS_DIR_ENTRY_TYPE_FILE]),
      if_neg (by
        simp [hlast, hd, EXFATFS_DIR_ENTRY_TYPE_FILE,
          EXFATFS_DIR_ENTRY_TYPE_DELETED_FILE,
          EXFATFS_DIR_ENTRY_TYPE_FILE_STREAM,
          EXFATFS_DIR_ENTRY_TYPE_DELETED_FILE_STREAM])]
    dsimp only
    split <;> rename_i hcnt
    · simp [exfatfs_add_name_to_dir_and_reset_info, exfatfs_reset_name_info,
        EXFATFS_DIR_ENTRY_TYPE_NONE, hcnt]
    · simp [hd, EXFATFS_DIR_ENTRY_TYPE_FILE_STREAM,
        EXFATFS_DIR_ENTRY_TYPE_NONE]
      exact hcnt
  · unfold exfats_parse_file_name_dentry
    rw [if_neg (by simp [hlast', EXFATFS_DIR_ENTRY_TYPE_FILE_NAME]),
      if_neg (by
        simp [hlast', hd', EXFATFS_DIR_ENTRY_TYPE_FILE_STREAM,
          EXFATFS_DIR_ENTRY_TYPE_DELETED_FILE_STREAM,
          EXFATFS_DIR_ENTRY_TYPE_FILE_NAME,
          EXFATFS_DIR_ENTRY_TYPE_DELETED_FILE_NAME])]
    dsimp only
    rw [if_pos hcap, hdec]
    dsimp only
    split <;> rename_i hcnt
    · simp [exfatfs_add_name_to_dir_and_reset_info, exfatfs_reset_name_info,
        EXFATFS_DIR_ENTRY_TYPE_NONE, hcnt]
    · simp [hd', EXFATFS_DIR_ENTRY_TYPE_FILE_NAME,
        EXFATFS_DIR_ENTRY_TYPE_NONE]
      exact hcnt

theorem exfatfs_secondary_count_finalize_mod256_witness :
    (exfats_parse_file_stream_dentry c10_wstate_stream c10_stream
        3).1.last_dentry_type = EXFATFS_DIR_ENTRY_TYPE_NONE ∧
    (exfats_parse_file_name_dentry c10_ext c10_wstate_name c10_name
        4).1.last_dentry_type = EXFATFS_DIR_ENTRY_TYPE_NONE := by
  have h := exfatfs_secondary_count_finalize_mod256 c10_ext c10_wstate_stream
    c10_wstate_name c10_stream c10_name 3 4 [] (by decide) (by decide)
    (by decide) (by decide) (by decide) (by decide)
  exact ⟨h.1.mpr (by decide), h.2.mpr (by decide)⟩

end ExfatDent
